import Mathlib

/-!
Shallow embedding of `holz_smb_connector/smb_connector.py`.

The module defines an `SMBConnector` class wrapping a pysmb `SMBConnection`.
We model the protocol client (`SMBConnection`) as an oracle (`ConnOracle`)
that fixes the outcome of each protocol call, and each connector method as a
pure function returning its Python result (`Except PyExc α`, where an
`Except.error` models a raised exception) together with the ordered trace of
observable events: protocol-client calls, temporary-file lifecycle events
(creation, seek, close) and the context-manager yield point.

String operations are embedded as: Python `"/".join([a, b])` is
`a ++ "/" ++ b`; Python `s.split("/")` is `pySplitSlash` (split on the
separator character, empty pieces kept, `[""]` for the empty string — the
semantics of `str.split` with an explicit separator); Python `s.strip()` is
`pyStrip` (drop leading and trailing whitespace).
-/

deriving instance DecidableEq for Except

/-- Python exceptions that the embedded code can raise or propagate:
`OperationFailure` from `smb.smb_structs`, `AssertionError` from a failed
`assert`, and any other exception (e.g. one raised by a caller's `with` body). -/
inductive PyExc where
  | operationFailure : PyExc
  | assertionError : PyExc
  | otherError : String → PyExc
deriving DecidableEq

/-- A raw entry as returned by `SMBConnection.listPath` (a pysmb `SharedFile`):
the three attributes `list_dir` reads. -/
structure RawEntry where
  filename : String
  isDirectory : Bool
  isReadOnly : Bool
deriving DecidableEq

/-- The `SMBFile` dataclass of the source. -/
structure SMBFile where
  name : String
  is_dir : Bool
  read_only : Bool
deriving DecidableEq

/-- A protocol-client call, with the arguments the source passes. The file
argument of `retrieveFile`/`storeFile` is identified by a temp-file id
(`some id`) when it is an operation-local staging file, or `none` when it is
a caller-provided file object (`store_file`). -/
inductive SMBCall where
  | connect : String → Nat → SMBCall
  | listPath : String → String → SMBCall
  | retrieveFile : String → String → Nat → SMBCall
  | storeFile : String → String → Option Nat → SMBCall
  | deleteFiles : String → String → Bool → SMBCall
  | createDirectory : String → String → SMBCall
  | deleteDirectory : String → String → SMBCall
deriving DecidableEq

/-- An observable event of a connector method: a protocol-client call, a
temporary staging file's lifecycle (create / seek-to-position / close, i.e.
delete), or the context-manager yield of a staging file to the caller. -/
inductive Event where
  | call : SMBCall → Event
  | tmpCreate : Nat → Event
  | tmpSeek : Nat → Nat → Event
  | yielded : Nat → Event
  | tmpClose : Nat → Event
deriving DecidableEq

/-- Oracle fixing the behaviour of the underlying `SMBConnection`:
each protocol call either returns a value or raises an exception.
`retrieveResult` gives the bytes written into the local sink,
`storeResult` the reported transferred-byte count for a given source content. -/
structure ConnOracle where
  connectResult : String → Nat → Except PyExc Bool
  listPathResult : String → String → Except PyExc (List RawEntry)
  retrieveResult : String → String → Except PyExc (List Nat)
  storeResult : String → String → List Nat → Except PyExc Nat
  createDirResult : String → String → Except PyExc Unit
  deleteFilesResult : String → String → Bool → Except PyExc Unit
  deleteDirResult : String → String → Except PyExc Unit

/-- The resolved state of an `SMBConnector` instance: the values stored by
`__init__` (credentials as passed to `SMBConnection`, plus the attributes
`shared_folder`, `work_dir`, `host`, `port`). -/
structure Connector where
  username : String
  password : String
  shared_folder : String
  work_dir : String
  host : String
  port : Nat
deriving DecidableEq

/-- `pydantic` settings object `SMBSettings` with its field defaults. -/
structure SMBSettings where
  username : String := ""
  password : String := ""
  shared_folder : String := ""
  work_dir : String := ""
  host : String := ""
  port : Nat := 445
deriving DecidableEq

/-- Python `"/".join([a, b])`. -/
def joinPath (a b : String) : String := a ++ "/" ++ b

/-- Python `s.split("/")`: split on every occurrence of the separator,
keeping empty pieces; the empty string yields `[""]`. -/
def pySplitSlash (s : String) : List String :=
  (s.data.splitOnP (fun ch => ch = '/')).map fun cs => String.mk cs

/-- Python `s.strip()`: remove leading and trailing whitespace. -/
def pyStrip (s : String) : String :=
  String.mk (((s.data.dropWhile Char.isWhitespace).reverse.dropWhile
    Char.isWhitespace).reverse)

/-- Python `arg if arg else default` for an optional string argument:
`None` and `""` are falsy, any other string is truthy. -/
def strOverride (arg : Option String) (settingsVal : String) : String :=
  match arg with
  | some a => if a = "" then pyStrip settingsVal else a
  | none => pyStrip settingsVal

/-- Python `arg if arg else default` for the optional int `port` argument:
`None` and `0` are falsy. Note the settings value is not stripped (it is an
int, `strip` applies only to the string settings fields). -/
def natOverride (arg : Option Nat) (settingsVal : Nat) : Nat :=
  match arg with
  | some p => if p = 0 then settingsVal else p
  | none => settingsVal

/-- `SMBConnector.__init__`: each attribute resolves to the caller-supplied
argument when that argument is truthy, otherwise to the corresponding
`SMBSettings` field, stripped (`.strip()`) for the string fields. Argument
order follows the source signature. -/
def smbInit (s : SMBSettings) (username password host : Option String)
    (port : Option Nat) (shared_folder work_dir : Option String) : Connector :=
  { username := strOverride username s.username
    password := strOverride password s.password
    shared_folder := strOverride shared_folder s.shared_folder
    work_dir := strOverride work_dir s.work_dir
    host := strOverride host s.host
    port := natOverride port s.port }

/-- `SMBConnector.__enter__`: `assert self.conn.connect(ip=self.host,
port=self.port)` then `return self`. A `False` return from `connect` raises
`AssertionError`; an exception from `connect` propagates. -/
def smbEnter (o : ConnOracle) (c : Connector) : Except PyExc Connector × List Event :=
  match o.connectResult c.host c.port with
  | .error e => (.error e, [.call (.connect c.host c.port)])
  | .ok true => (.ok c, [.call (.connect c.host c.port)])
  | .ok false => (.error .assertionError, [.call (.connect c.host c.port)])

/-- The entry mapping inside `list_dir`:
`SMBFile(name=f.filename, is_dir=f.isDirectory, read_only=f.isReadOnly)`. -/
def toSMBFile (f : RawEntry) : SMBFile :=
  { name := f.filename, is_dir := f.isDirectory, read_only := f.isReadOnly }

/-- The removal condition of the loop in `list_dir`:
`file.is_dir and file.name in (".", "..")`. -/
def isSelfOrParentDir (f : SMBFile) : Bool :=
  f.is_dir && (f.name = "." || f.name = "..")

/-- The loop `for file in files_list[:]: if ...: files_list.remove(file)` of
`list_dir`: iterate over a snapshot copy; on a match, remove the first equal
element from the current list (Python `list.remove`; the element is always
present, see `removeLoop_eq_filter`, so the `ValueError` branch of `remove`
is unreachable and `List.erase` embeds it faithfully). -/
def removeLoop : List SMBFile → List SMBFile → List SMBFile
  | [], cur => cur
  | f :: fs, cur => removeLoop fs (if isSelfOrParentDir f then cur.erase f else cur)

/-- `SMBConnector.list_dir`: resolve the path, ask the protocol client for the
listing, map raw entries to `SMBFile`, then run the removal loop. -/
def list_dir (o : ConnOracle) (c : Connector) (path : String) :
    Except PyExc (List SMBFile) × List Event :=
  let full_path := joinPath c.work_dir path
  match o.listPathResult c.shared_folder full_path with
  | .error e => (.error e, [.call (.listPath c.shared_folder full_path)])
  | .ok raw =>
      let files_list := raw.map toSMBFile
      (.ok (removeLoop files_list files_list),
        [.call (.listPath c.shared_folder full_path)])

/-- `SMBConnector.retrieve_file` (a `@contextmanager`): create a
`NamedTemporaryFile` (id 0), retrieve the remote file into it, `seek(0)`,
yield it to the caller's block (modelled by `body`, a function of the
retrieved bytes, returning normally or raising), and close (hence delete) the
staging file in the `finally` on every exit path. -/
def retrieve_file {α : Type} (o : ConnOracle) (c : Connector) (path : String)
    (body : List Nat → Except PyExc α) : Except PyExc α × List Event :=
  let full_path := joinPath c.work_dir path
  match o.retrieveResult c.shared_folder full_path with
  | .error e =>
      (.error e, [.tmpCreate 0, .call (.retrieveFile c.shared_folder full_path 0),
        .tmpClose 0])
  | .ok content =>
      match body content with
      | .error e =>
          (.error e, [.tmpCreate 0, .call (.retrieveFile c.shared_folder full_path 0),
            .tmpSeek 0 0, .yielded 0, .tmpClose 0])
      | .ok a =>
          (.ok a, [.tmpCreate 0, .call (.retrieveFile c.shared_folder full_path 0),
            .tmpSeek 0 0, .yielded 0, .tmpClose 0])

/-- `SMBConnector.store_file`: resolve the path, store the caller's file
object, return `True` iff the reported byte count is truthy (nonzero). -/
def store_file (o : ConnOracle) (c : Connector) (path : String)
    (file_obj : List Nat) : Except PyExc Bool × List Event :=
  let full_path := joinPath c.work_dir path
  match o.storeResult c.shared_folder full_path file_obj with
  | .error e => (.error e, [.call (.storeFile c.shared_folder full_path none)])
  | .ok bytes_count =>
      (.ok (if bytes_count ≠ 0 then true else false),
        [.call (.storeFile c.shared_folder full_path none)])

/-- `SMBConnector.delete_files`: resolve the pattern and delegate. -/
def delete_files (o : ConnOracle) (c : Connector) (file_pattern : String)
    (delete_folders : Bool) : Except PyExc Unit × List Event :=
  let full_pattern := joinPath c.work_dir file_pattern
  match o.deleteFilesResult c.shared_folder full_pattern delete_folders with
  | .error e => (.error e, [.call (.deleteFiles c.shared_folder full_pattern delete_folders)])
  | .ok _ => (.ok (), [.call (.deleteFiles c.shared_folder full_pattern delete_folders)])

/-- The `while dirs:` loop of `create_dir`: pop the leading component, append
it plus `"/"` to `current_path`, attempt `createDirectory`, swallow
`OperationFailure` only (`except OperationFailure: pass`), propagate any
other exception. -/
def create_dir_loop (o : ConnOracle) (sh : String) :
    List String → String → Except PyExc Unit × List Event
  | [], _ => (.ok (), [])
  | d :: ds, current =>
      let current2 := current ++ d ++ "/"
      match o.createDirResult sh current2 with
      | .ok _ =>
          let r := create_dir_loop o sh ds current2
          (r.1, .call (.createDirectory sh current2) :: r.2)
      | .error .operationFailure =>
          let r := create_dir_loop o sh ds current2
          (r.1, .call (.createDirectory sh current2) :: r.2)
      | .error e => (.error e, [.call (.createDirectory sh current2)])

/-- `SMBConnector.create_dir`: split the resolved path on `"/"` and run the
component loop starting from the empty accumulated path. -/
def create_dir (o : ConnOracle) (c : Connector) (path : String) :
    Except PyExc Unit × List Event :=
  let full_path := joinPath c.work_dir path
  create_dir_loop o c.shared_folder (pySplitSlash full_path) ""

/-- `SMBConnector.delete_dir`: resolve the path and delegate. -/
def delete_dir (o : ConnOracle) (c : Connector) (path : String) :
    Except PyExc Unit × List Event :=
  let full_path := joinPath c.work_dir path
  match o.deleteDirResult c.shared_folder full_path with
  | .error e => (.error e, [.call (.deleteDirectory c.shared_folder full_path)])
  | .ok _ => (.ok (), [.call (.deleteDirectory c.shared_folder full_path)])

/-- `SMBConnector.copy_file`: resolve both paths, stage through a
`NamedTemporaryFile` (id 0) opened by a `with` block: retrieve the source into
it, `seek(0)`, store it to the destination; the `with` block closes (deletes)
the staging file on every exit path, and any retrieve/store exception
propagates. -/
def copy_file (o : ConnOracle) (c : Connector) (old_path new_path : String) :
    Except PyExc Unit × List Event :=
  let full_old_path := joinPath c.work_dir old_path
  let full_new_path := joinPath c.work_dir new_path
  match o.retrieveResult c.shared_folder full_old_path with
  | .error e =>
      (.error e, [.tmpCreate 0, .call (.retrieveFile c.shared_folder full_old_path 0),
        .tmpClose 0])
  | .ok content =>
      match o.storeResult c.shared_folder full_new_path content with
      | .error e =>
          (.error e, [.tmpCreate 0, .call (.retrieveFile c.shared_folder full_old_path 0),
            .tmpSeek 0 0, .call (.storeFile c.shared_folder full_new_path (some 0)),
            .tmpClose 0])
      | .ok _ =>
          (.ok (), [.tmpCreate 0, .call (.retrieveFile c.shared_folder full_old_path 0),
            .tmpSeek 0 0, .call (.storeFile c.shared_folder full_new_path (some 0)),
            .tmpClose 0])

/-- `SMBConnector.move_file`: `copy_file`, then
`self.conn.deleteFiles(self.shared_folder, full_old_path)` — a direct
protocol-client call on the resolved old path, with pysmb's default
`delete_matching_folders=False`. An exception from `copy_file` propagates
before any delete is attempted. -/
def move_file (o : ConnOracle) (c : Connector) (old_path new_path : String) :
    Except PyExc Unit × List Event :=
  let r := copy_file o c old_path new_path
  match r.1 with
  | .error e => (.error e, r.2)
  | .ok _ =>
      let full_old_path := joinPath c.work_dir old_path
      match o.deleteFilesResult c.shared_folder full_old_path false with
      | .error e => (.error e, r.2 ++ [.call (.deleteFiles c.shared_folder full_old_path false)])
      | .ok _ => (.ok (), r.2 ++ [.call (.deleteFiles c.shared_folder full_old_path false)])

/-- The remote path every call in a trace addresses (the connect call has
none). Used to state that an operation does not touch a given path. -/
def callPath : SMBCall → Option String
  | .connect _ _ => none
  | .listPath _ p => some p
  | .retrieveFile _ p _ => some p
  | .storeFile _ p _ => some p
  | .deleteFiles _ p _ => some p
  | .createDirectory _ p => some p
  | .deleteDirectory _ p => some p

/-- The accumulated `current_path` values that `create_dir_loop` feeds to
`createDirectory`, one per remaining component. -/
def componentPaths : List String → String → List String
  | [], _ => []
  | d :: ds, current => (current ++ d ++ "/") :: componentPaths ds (current ++ d ++ "/")

/-- An oracle whose `createDirectory` failures are all `OperationFailure` —
the failure signal pysmb's `createDirectory` uses to report a directory
creation that did not happen (e.g. "already exists", "denied"). -/
def OnlyOpFailCreate (o : ConnOracle) : Prop :=
  ∀ sh p, o.createDirResult sh p = .ok () ∨ o.createDirResult sh p = .error .operationFailure

/-- An all-succeeding oracle, for concrete witnesses. -/
def okOracle : ConnOracle where
  connectResult := fun _ _ => .ok true
  listPathResult := fun _ _ => .ok []
  retrieveResult := fun _ _ => .ok [1, 2, 3]
  storeResult := fun _ _ content => .ok content.length
  createDirResult := fun _ _ => .ok ()
  deleteFilesResult := fun _ _ _ => .ok ()
  deleteDirResult := fun _ _ => .ok ()

/-- A concrete connector state, for witnesses and counterexamples. -/
def cDefault : Connector :=
  { username := "u", password := "p", shared_folder := "share",
    work_dir := "work", host := "h", port := 445 }

/-- Oracle whose listing contains a single non-directory entry named ".". -/
def oDotFile : ConnOracle :=
  { okOracle with listPathResult := fun _ _ => .ok [⟨".", false, false⟩] }

/-- A sample raw listing mixing directory and file entries, with "." and ".."
directory entries appearing, "." twice. -/
def rawSample : List RawEntry :=
  [⟨".", true, false⟩, ⟨"..", true, false⟩, ⟨"sub", true, false⟩,
    ⟨"f.txt", false, false⟩, ⟨".", true, false⟩]

/-- Oracle returning `rawSample` for every listing. -/
def oListSample : ConnOracle :=
  { okOracle with listPathResult := fun _ _ => .ok rawSample }

/-- Erasing one occurrence of an element that the removal condition matches
does not change the list of non-matching elements. -/
lemma filter_erase_of_pred (f : SMBFile) (hf : isSelfOrParentDir f = true)
    (cur : List SMBFile) :
    (cur.erase f).filter (fun a => !isSelfOrParentDir a) =
      cur.filter (fun a => !isSelfOrParentDir a) := by
  induction cur with
  | nil => simp
  | cons a as ih =>
    rw [List.erase_cons]
    by_cases ha : a = f
    · subst ha
      simp [List.filter_cons, hf]
    · rw [if_neg (by simp [ha])]
      by_cases hpa : isSelfOrParentDir a
      · simp [List.filter_cons, hpa, ih]
      · simp [List.filter_cons, hpa, ih]

/-- The removal loop, run on any current list holding at most as many copies
of each matching element as the snapshot, removes exactly the matching
elements: this is the invariant that makes the `list.remove`-in-a-loop idiom
of `list_dir` behave as a filter (and shows the removed element is always
present, so Python's `remove` never raises `ValueError` here). -/
lemma removeLoop_eq_filter_aux (snapshot : List SMBFile) :
    ∀ cur : List SMBFile,
      (∀ v, isSelfOrParentDir v = true → cur.count v ≤ snapshot.count v) →
      removeLoop snapshot cur = cur.filter (fun a => !isSelfOrParentDir a) := by
  induction snapshot with
  | nil =>
    intro cur h
    rw [removeLoop]
    symm
    rw [List.filter_eq_self]
    intro a ha
    by_contra hP
    have hP2 : isSelfOrParentDir a = true := by
      revert hP
      cases isSelfOrParentDir a <;> simp
    have h0 := h a hP2
    simp at h0
    rw [List.count_eq_zero] at h0
    exact h0 ha
  | cons f fs ih =>
    intro cur h
    rw [removeLoop]
    by_cases hf : isSelfOrParentDir f
    · rw [if_pos hf]
      rw [ih (cur.erase f) ?_]
      · exact filter_erase_of_pred f hf cur
      intro v hv
      by_cases hvf : v = f
      · subst hvf
        have h1 := h v hv
        rw [List.count_cons_self] at h1
        rw [List.count_erase_self]
        omega
      · rw [List.count_erase_of_ne hvf]
        have h1 := h v hv
        rw [List.count_cons_of_ne hvf] at h1
        exact h1
    · rw [if_neg hf]
      rw [ih cur ?_]
      intro v hv
      have hvf : v ≠ f := by
        intro hvf
        subst hvf
        exact hf hv
      have h1 := h v hv
      rw [List.count_cons_of_ne hvf] at h1
      exact h1

/-- Run on the snapshot of itself — exactly what `list_dir` does — the
removal loop is the filter dropping matching entries. -/
lemma removeLoop_eq_filter (l : List SMBFile) :
    removeLoop l l = l.filter (fun a => !isSelfOrParentDir a) :=
  removeLoop_eq_filter_aux l l (fun _ _ => le_refl _)

/-- C1 counterexample: `list_dir` keeps a non-directory entry named "."
because its removal condition also requires `is_dir`; the result of listing
against an oracle whose raw listing is a lone regular file named "." contains
an entry named ".", contradicting the claim that no returned entry is named
"." or "..". -/
theorem list_dir_keeps_nondir_dot_entry :
    (list_dir oDotFile cDefault "").1 = .ok [⟨".", false, false⟩] ∧
    ¬ (∀ f ∈ [(⟨".", false, false⟩ : SMBFile)], f.name ≠ "." ∧ f.name ≠ "..") := by
  constructor
  · decide
  · decide

/-- C1 amended: for every oracle, connector state and path, when the raw
listing succeeds, `list_dir` returns exactly the mapped entries with every
entry that is a directory named "." or ".." removed (all occurrences, via the
snapshot-copy removal loop), all others kept in the protocol client's order;
the only protocol call issued is the single `listPath` on the resolved path. -/
theorem list_dir_filter_characterization (o : ConnOracle) (c : Connector)
    (path : String) (raw : List RawEntry)
    (h : o.listPathResult c.shared_folder (joinPath c.work_dir path) = .ok raw) :
    (list_dir o c path).1 =
      .ok ((raw.map toSMBFile).filter (fun f => !isSelfOrParentDir f)) ∧
    (list_dir o c path).2 =
      [.call (.listPath c.shared_folder (joinPath c.work_dir path))] := by
  simp only [list_dir, h]
  rw [removeLoop_eq_filter]
  exact ⟨rfl, trivial⟩

/-- C1 witness: on the sample listing (".", "..", a subdirectory, a file,
"." again) the characterization evaluates to just the subdirectory and the
file, in order. -/
theorem list_dir_filter_characterization_witness :
    (list_dir oListSample cDefault "d").1 =
      .ok [⟨"sub", true, false⟩, ⟨"f.txt", false, false⟩] := by
  have h := (list_dir_filter_characterization oListSample cDefault "d" rawSample rfl).1
  rw [h]
  decide

/-- Components fed to `createDirectory` are in bijection with the path
components: one attempted directory per component. -/
lemma componentPaths_length (ds : List String) :
    ∀ current, (componentPaths ds current).length = ds.length := by
  induction ds with
  | nil => intro current; rfl
  | cons d ds ih => intro current; simp [componentPaths, ih]

/-- Under an oracle whose directory-creation failures are all
`OperationFailure` (the protocol's directory-creation failure signal), the
component loop of `create_dir` returns normally and issues exactly one
`createDirectory` call per remaining component, on the accumulated
slash-terminated prefixes. -/
lemma create_dir_loop_spec (o : ConnOracle) (sh : String)
    (h : ∀ p, o.createDirResult sh p = .ok () ∨
      o.createDirResult sh p = .error .operationFailure) :
    ∀ (ds : List String) (current : String),
      create_dir_loop o sh ds current =
        (.ok (), (componentPaths ds current).map
          fun p => Event.call (.createDirectory sh p)) := by
  intro ds
  induction ds with
  | nil => intro current; rfl
  | cons d ds ih =>
    intro current
    rcases h (current ++ d ++ "/") with h1 | h1
    · simp [create_dir_loop, componentPaths, h1, ih]
    · simp [create_dir_loop, componentPaths, h1, ih]

/-- Oracle on which every `createDirectory` fails with `OperationFailure`
(e.g. every directory already exists); everything else succeeds. -/
def oAllExist : ConnOracle :=
  { okOracle with createDirResult := fun _ _ => .error .operationFailure }

/-- Connector state with an empty work root. -/
def cEmptyRoot : Connector := { cDefault with work_dir := "" }

/-- C2: for every connector state and path, when the protocol client's
directory-creation failures are its `OperationFailure` signal (covering
"already exists" and any other creation failure), `create_dir` completes
without raising: every such failure is swallowed by the
`except OperationFailure: pass` and the walk continues. In particular a
second call with the same path — where every component now exists — again
returns normally. -/
theorem create_dir_swallows_creation_failures (o : ConnOracle) (c : Connector)
    (path : String) (h : OnlyOpFailCreate o) :
    (create_dir o c path).1 = .ok () := by
  have hsh := fun p => h c.shared_folder p
  simp only [create_dir]
  rw [create_dir_loop_spec o c.shared_folder hsh]

/-- C2 witness: on an oracle where every creation attempt fails with
`OperationFailure` (a fully existing path), `create_dir` still returns
normally. -/
theorem create_dir_swallows_creation_failures_witness :
    (create_dir oAllExist cDefault "a/b").1 = .ok () :=
  create_dir_swallows_creation_failures oAllExist cDefault "a/b"
    (fun _ _ => Or.inr rfl)

/-- C3 counterexample: with an empty work root, `create_dir("a/b/c")` does
not issue the three calls "a", "a/b", "a/b/c": the resolved path is
`"" + "/" + "a/b/c" = "/a/b/c"`, whose split has four components (a leading
empty one), and each accumulated prefix carries a leading and a trailing
slash — four calls "/", "/a/", "/a/b/", "/a/b/c/". -/
theorem create_dir_abc_calls_counterexample :
    (create_dir okOracle cEmptyRoot "a/b/c").2 =
      [.call (.createDirectory "share" "/"), .call (.createDirectory "share" "/a/"),
        .call (.createDirectory "share" "/a/b/"),
        .call (.createDirectory "share" "/a/b/c/")] ∧
    (create_dir okOracle cEmptyRoot "a/b/c").2 ≠
      [.call (.createDirectory "share" "a"), .call (.createDirectory "share" "a/b"),
        .call (.createDirectory "share" "a/b/c")] := by
  constructor
  · decide
  · decide

/-- C3 amended: with an empty work root and directory-creation failures all
signalled as `OperationFailure`, `create_dir("a/b/c")` issues exactly four
`createDirectory` calls, in order, on the growing slash-terminated prefixes
"/", "/a/", "/a/b/", "/a/b/c/" of the resolved path "/a/b/c" — and no
others. -/
theorem create_dir_abc_empty_root_calls (o : ConnOracle) (c : Connector)
    (h : OnlyOpFailCreate o) (hroot : c.work_dir = "") :
    (create_dir o c "a/b/c").2 =
      [.call (.createDirectory c.shared_folder "/"),
        .call (.createDirectory c.shared_folder "/a/"),
        .call (.createDirectory c.shared_folder "/a/b/"),
        .call (.createDirectory c.shared_folder "/a/b/c/")] := by
  have hsh := fun p => h c.shared_folder p
  simp only [create_dir]
  rw [create_dir_loop_spec o c.shared_folder hsh]
  rw [hroot]
  rfl

/-- C3 amended witness: concrete evaluation of the four calls on the
all-succeeding oracle and the empty-root connector. -/
theorem create_dir_abc_empty_root_calls_witness :
    (create_dir okOracle cEmptyRoot "a/b/c").2 =
      [.call (.createDirectory "share" "/"), .call (.createDirectory "share" "/a/"),
        .call (.createDirectory "share" "/a/b/"),
        .call (.createDirectory "share" "/a/b/c/")] :=
  create_dir_abc_empty_root_calls okOracle cEmptyRoot
    (fun _ _ => Or.inl rfl) rfl

/-- C10: for every work root and path, when the protocol client signals
directory-creation failures as `OperationFailure`, `create_dir` returns
normally having issued exactly one `createDirectory` attempt per
"/"-separated component of the joined path `work_root + "/" + path` (empty
components included), in component order, and no other event — the loop
consumes one component per iteration and terminates (the embedding is a
total structural recursion on the component list). -/
theorem create_dir_one_attempt_per_component (o : ConnOracle) (c : Connector)
    (path : String) (h : OnlyOpFailCreate o) :
    (create_dir o c path).2 =
      (componentPaths (pySplitSlash (joinPath c.work_dir path)) "").map
        (fun p => Event.call (.createDirectory c.shared_folder p)) ∧
    (create_dir o c path).2.length =
      (pySplitSlash (joinPath c.work_dir path)).length ∧
    (create_dir o c path).1 = .ok () := by
  have hsh := fun p => h c.shared_folder p
  simp only [create_dir]
  rw [create_dir_loop_spec o c.shared_folder hsh]
  refine ⟨rfl, ?_, rfl⟩
  rw [List.length_map, componentPaths_length]

/-- C10 witness: under work root "work", the joined path "work/x/y" splits
into the three components "work", "x", "y", and the loop issues exactly
three attempts. -/
theorem create_dir_one_attempt_per_component_witness :
    (create_dir okOracle cDefault "x/y").2 =
      (componentPaths (pySplitSlash (joinPath "work" "x/y")) "").map
        (fun p => Event.call (.createDirectory "share" p)) ∧
    (create_dir okOracle cDefault "x/y").2.length = 3 := by
  have h := create_dir_one_attempt_per_component okOracle cDefault "x/y"
    (fun _ _ => Or.inl rfl)
  exact ⟨h.1, by rw [h.2.1]; decide⟩

/-- Oracle on which every store fails (e.g. write denied); retrieves succeed. -/
def oStoreFails : ConnOracle :=
  { okOracle with storeResult := fun _ _ _ => .error (.otherError "denied") }

/-- C4: in `copy_file`, when the retrieve of the source succeeds and the
store to the destination fails, the store's exception is the call's result
(propagates), the trace is exactly create-staging, retrieve, rewind, store,
close-staging — so the staging file is still released before the call
returns (it is the last event) — and, when the two resolved paths differ, no
call other than the single retrieve addresses the source path. -/
theorem copy_file_store_failure_frame (o : ConnOracle) (c : Connector)
    (old_path new_path : String) (content : List Nat) (e : PyExc)
    (hr : o.retrieveResult c.shared_folder (joinPath c.work_dir old_path) = .ok content)
    (hs : o.storeResult c.shared_folder (joinPath c.work_dir new_path) content = .error e) :
    copy_file o c old_path new_path =
      (.error e,
        [.tmpCreate 0,
          .call (.retrieveFile c.shared_folder (joinPath c.work_dir old_path) 0),
          .tmpSeek 0 0,
          .call (.storeFile c.shared_folder (joinPath c.work_dir new_path) (some 0)),
          .tmpClose 0]) ∧
    (copy_file o c old_path new_path).2.getLast? = some (.tmpClose 0) ∧
    (joinPath c.work_dir old_path ≠ joinPath c.work_dir new_path →
      ∀ ev ∈ (copy_file o c old_path new_path).2, ∀ k, ev = Event.call k →
        callPath k = some (joinPath c.work_dir old_path) →
        k = .retrieveFile c.shared_folder (joinPath c.work_dir old_path) 0) := by
  have h1 : copy_file o c old_path new_path =
      (.error e,
        [.tmpCreate 0,
          .call (.retrieveFile c.shared_folder (joinPath c.work_dir old_path) 0),
          .tmpSeek 0 0,
          .call (.storeFile c.shared_folder (joinPath c.work_dir new_path) (some 0)),
          .tmpClose 0]) := by
    simp only [copy_file, hr, hs]
  refine ⟨h1, ?_, ?_⟩
  · rw [h1]
    rfl
  · intro hne ev hev k hk hkp
    subst hk
    rw [h1] at hev
    simp only [List.mem_cons, List.mem_singleton] at hev
    rcases hev with h2 | h2 | h2 | h2 | h2
    · simp at h2
    · simp only [Event.call.injEq] at h2
      subst h2
      rfl
    · simp at h2
    · simp only [Event.call.injEq] at h2
      subst h2
      simp only [callPath, Option.some.injEq] at hkp
      exact absurd hkp (Ne.symm hne)
    · simp at h2

/-- C4 witness: concrete run where the retrieve succeeds and the store is
denied — the error propagates and the trace ends by closing the staging
file. -/
theorem copy_file_store_failure_frame_witness :
    copy_file oStoreFails cDefault "a" "b" =
      (.error (.otherError "denied"),
        [.tmpCreate 0, .call (.retrieveFile "share" "work/a" 0), .tmpSeek 0 0,
          .call (.storeFile "share" "work/b" (some 0)), .tmpClose 0]) := by
  have h := (copy_file_store_failure_frame oStoreFails cDefault "a" "b"
    [1, 2, 3] (.otherError "denied") rfl rfl).1
  rw [h]
  decide

/-- C5: when `copy_file` succeeds, `move_file` is exactly that copy followed
by a single protocol-client `deleteFiles` call on the exact resolved old path
(`work_dir + "/" + old`) with `delete_folders = false`; the delete's outcome
is the call's outcome; and for distinct relative paths the deleted path is
not the destination path. -/
theorem move_file_is_copy_then_delete (o : ConnOracle) (c : Connector)
    (old_path new_path : String)
    (hc : (copy_file o c old_path new_path).1 = .ok ()) :
    (move_file o c old_path new_path).2 =
      (copy_file o c old_path new_path).2 ++
        [.call (.deleteFiles c.shared_folder (joinPath c.work_dir old_path) false)] ∧
    (o.deleteFilesResult c.shared_folder (joinPath c.work_dir old_path) false = .ok () →
      (move_file o c old_path new_path).1 = .ok ()) ∧
    (∀ e, o.deleteFilesResult c.shared_folder (joinPath c.work_dir old_path) false
        = .error e →
      (move_file o c old_path new_path).1 = .error e) ∧
    (old_path ≠ new_path →
      joinPath c.work_dir old_path ≠ joinPath c.work_dir new_path) := by
  refine ⟨?_, ?_, ?_, ?_⟩
  · simp only [move_file, hc]
    cases hd : o.deleteFilesResult c.shared_folder (joinPath c.work_dir old_path) false <;>
      rfl
  · intro hd
    simp only [move_file, hc, hd]
  · intro e hd
    simp only [move_file, hc, hd]
  · intro hne heq
    apply hne
    have hdata := congrArg String.data heq
    simp only [joinPath, String.data_append] at hdata
    have hdd := List.append_cancel_left hdata
    cases old_path
    cases new_path
    exact congrArg String.mk hdd

/-- C5 witness: all-succeeding oracle; the move trace is the copy trace with
the single exact-path delete appended. -/
theorem move_file_is_copy_then_delete_witness :
    (move_file okOracle cDefault "a" "b").2 =
      [.tmpCreate 0, .call (.retrieveFile "share" "work/a" 0), .tmpSeek 0 0,
        .call (.storeFile "share" "work/b" (some 0)), .tmpClose 0,
        .call (.deleteFiles "share" "work/a" false)] ∧
    joinPath "work" "a" ≠ joinPath "work" "b" := by
  have h := move_file_is_copy_then_delete okOracle cDefault "a" "b" rfl
  refine ⟨?_, h.2.2.2 (by decide)⟩
  rw [h.1]
  decide

/-- C6: for every oracle, connector state, path and caller block, the scoped
`retrieve_file` creates the staging file first (the trace's head is its
creation) and deletes it last on every exit path (the trace's last event is
its close): when the retrieve succeeds the staging file is rewound
(`seek(0)`) before being yielded and the call's outcome is the caller
block's outcome — whether that block returns or raises — and when the
retrieve itself fails its exception propagates, with the staging file still
closed. -/
theorem retrieve_file_staging_cleanup {α : Type} (o : ConnOracle) (c : Connector)
    (path : String) (body : List Nat → Except PyExc α) :
    (retrieve_file o c path body).2.head? = some (.tmpCreate 0) ∧
    (retrieve_file o c path body).2.getLast? = some (.tmpClose 0) ∧
    (∀ content,
      o.retrieveResult c.shared_folder (joinPath c.work_dir path) = .ok content →
      retrieve_file o c path body =
        (body content,
          [.tmpCreate 0,
            .call (.retrieveFile c.shared_folder (joinPath c.work_dir path) 0),
            .tmpSeek 0 0, .yielded 0, .tmpClose 0])) ∧
    (∀ e, o.retrieveResult c.shared_folder (joinPath c.work_dir path) = .error e →
      retrieve_file o c path body =
        (.error e,
          [.tmpCreate 0,
            .call (.retrieveFile c.shared_folder (joinPath c.work_dir path) 0),
            .tmpClose 0])) := by
  cases hres : o.retrieveResult c.shared_folder (joinPath c.work_dir path) with
  | error e =>
    refine ⟨?_, ?_, ?_, ?_⟩
    · simp [retrieve_file, hres]
    · simp [retrieve_file, hres]
    · intro content hcon
      exact absurd hcon (by simp)
    · intro e2 he2
      injection he2 with h2
      subst h2
      simp [retrieve_file, hres]
  | ok content =>
    refine ⟨?_, ?_, ?_, ?_⟩
    · cases hb : body content <;> simp [retrieve_file, hres, hb]
    · cases hb : body content <;> simp [retrieve_file, hres, hb]
    · intro content2 hcon
      injection hcon with h2
      subst h2
      cases hb : body content <;> simp [retrieve_file, hres, hb]
    · intro e2 he2
      exact absurd he2 (by simp)

/-- C6 witness: concrete run with a successfully retrieved 3-byte file and a
normally returning caller block — the block's value is returned and the
trace is create, retrieve, rewind, yield, close. -/
theorem retrieve_file_staging_cleanup_witness :
    retrieve_file okOracle cDefault "f" (fun content => Except.ok content.length) =
      (Except.ok 3,
        [.tmpCreate 0, .call (.retrieveFile "share" "work/f" 0), .tmpSeek 0 0,
          .yielded 0, .tmpClose 0]) := by
  have h := (retrieve_file_staging_cleanup okOracle cDefault "f"
    (fun content => Except.ok content.length)).2.2.1 [1, 2, 3] rfl
  rw [h]
  decide

/-- Oracle reporting 3 bytes transferred for every store. -/
def oStore3 : ConnOracle := { okOracle with storeResult := fun _ _ _ => .ok 3 }

/-- Oracle reporting 0 bytes transferred for every store. -/
def oStore0 : ConnOracle := { okOracle with storeResult := fun _ _ _ => .ok 0 }

/-- C7: for every oracle, connector state, path and source content, when the
protocol client reports `n` bytes stored, `store_file` returns `True` iff
`n` is nonzero and `False` iff `n` is zero — the reported count is the only
success signal, the actual length of the source never enters the result. -/
theorem store_file_true_iff_nonzero (o : ConnOracle) (c : Connector)
    (path : String) (file_obj : List Nat) (n : Nat)
    (h : o.storeResult c.shared_folder (joinPath c.work_dir path) file_obj = .ok n) :
    ((store_file o c path file_obj).1 = .ok true ↔ n ≠ 0) ∧
    ((store_file o c path file_obj).1 = .ok false ↔ n = 0) := by
  by_cases hn : n = 0
  · subst hn
    simp [store_file, h]
  · simp [store_file, h, hn]

/-- C7 witness: the spec's documented weak-guarantee test — a 10-byte source
that the protocol client reports as "3 bytes transferred" still returns
`True`. -/
theorem store_file_true_iff_nonzero_witness :
    (store_file oStore3 cDefault "f" [0, 1, 2, 3, 4, 5, 6, 7, 8, 9]).1 =
      .ok true :=
  (store_file_true_iff_nonzero oStore3 cDefault "f"
    [0, 1, 2, 3, 4, 5, 6, 7, 8, 9] 3 rfl).1.mpr (by decide)

/-- Oracle whose connect attempt reports failure (returns `False`). -/
def oNoConnect : ConnOracle :=
  { okOracle with connectResult := fun _ _ => .ok false }

/-- C8: entering issues exactly one `connect` call with the session's
configured host and port; when the connect attempt succeeds (returns `True`)
entering returns the session handle itself; when it does not succeed — a
`False` return (failed `assert`) or a raised exception — entering raises
instead of returning a handle. -/
theorem enter_connects_or_signals_failure (o : ConnOracle) (c : Connector) :
    (smbEnter o c).2 = [.call (.connect c.host c.port)] ∧
    (o.connectResult c.host c.port = .ok true →
      smbEnter o c = (.ok c, [.call (.connect c.host c.port)])) ∧
    (o.connectResult c.host c.port = .ok false →
      (smbEnter o c).1 = .error .assertionError) ∧
    (∀ e, o.connectResult c.host c.port = .error e →
      (smbEnter o c).1 = .error e) := by
  cases hc : o.connectResult c.host c.port with
  | error e =>
    refine ⟨by simp [smbEnter, hc], ?_, ?_, ?_⟩
    · intro h2
      exact absurd h2 (by simp)
    · intro h2
      exact absurd h2 (by simp)
    · intro e2 he2
      injection he2 with h2
      subst h2
      simp [smbEnter, hc]
  | ok b =>
    cases b
    · refine ⟨by simp [smbEnter, hc], ?_, ?_, ?_⟩
      · intro h2
        exact absurd h2 (by simp)
      · intro h2
        simp [smbEnter, hc]
      · intro e2 he2
        exact absurd he2 (by simp)
    · refine ⟨by simp [smbEnter, hc], ?_, ?_, ?_⟩
      · intro h2
        simp [smbEnter, hc]
      · intro h2
        exact absurd h2 (by simp)
      · intro e2 he2
        exact absurd he2 (by simp)

/-- C8 witness: with a succeeding connect the session handle comes back; the
same theorem instantiated on a refusing oracle shows the `AssertionError`. -/
theorem enter_connects_or_signals_failure_witness :
    smbEnter okOracle cDefault = (.ok cDefault, [.call (.connect "h" 445)]) ∧
    (smbEnter oNoConnect cDefault).1 = .error .assertionError := by
  refine ⟨?_, (enter_connects_or_signals_failure oNoConnect cDefault).2.2.1 rfl⟩
  have h := (enter_connects_or_signals_failure okOracle cDefault).2.1 rfl
  rw [h]
  decide

/-- A settings object with whitespace-padded configured values. -/
def sSample : SMBSettings :=
  { username := " cu ", password := " cp ", shared_folder := " cs ",
    work_dir := " cw ", host := " ch ", port := 7 }

/-- C9 counterexample: a caller-supplied username " u " (non-empty, so it
wins) is stored as-is — the resolved value is not stripped of its
surrounding whitespace, since `.strip()` is applied only to the
settings-sourced operand of the `if/else`. -/
theorem smbInit_caller_value_not_stripped :
    (smbInit {} (some " u ") none none none none none).username = " u " ∧
    pyStrip " u " ≠ " u " := by
  constructor
  · decide
  · decide

/-- C9 amended: at construction each field resolves to the caller-supplied
argument — used as-is, not stripped — when that argument is provided and
non-empty (nonzero for the port); an absent, empty-string (or zero port)
caller value is treated as unset and the configuration-sourced value is used
instead, and only those configuration-sourced string values are stripped of
surrounding whitespace. -/
theorem smbInit_override_resolution (s : SMBSettings) (a : String) (n : Nat)
    (u pw hst sf wd : Option String) (pt : Option Nat) :
    (a ≠ "" →
      (smbInit s (some a) pw hst pt sf wd).username = a ∧
      (smbInit s u (some a) hst pt sf wd).password = a ∧
      (smbInit s u pw (some a) pt sf wd).host = a ∧
      (smbInit s u pw hst pt (some a) wd).shared_folder = a ∧
      (smbInit s u pw hst pt sf (some a)).work_dir = a) ∧
    (n ≠ 0 → (smbInit s u pw hst (some n) sf wd).port = n) ∧
    (smbInit s none pw hst pt sf wd).username = pyStrip s.username ∧
    (smbInit s (some "") pw hst pt sf wd).username = pyStrip s.username ∧
    (smbInit s u none hst pt sf wd).password = pyStrip s.password ∧
    (smbInit s u (some "") hst pt sf wd).password = pyStrip s.password ∧
    (smbInit s u pw none pt sf wd).host = pyStrip s.host ∧
    (smbInit s u pw (some "") pt sf wd).host = pyStrip s.host ∧
    (smbInit s u pw hst pt none wd).shared_folder = pyStrip s.shared_folder ∧
    (smbInit s u pw hst pt (some "") wd).shared_folder = pyStrip s.shared_folder ∧
    (smbInit s u pw hst pt sf none).work_dir = pyStrip s.work_dir ∧
    (smbInit s u pw hst pt sf (some "")).work_dir = pyStrip s.work_dir ∧
    (smbInit s u pw hst none sf wd).port = s.port ∧
    (smbInit s u pw hst (some 0) sf wd).port = s.port := by
  refine ⟨?_, ?_, ?_, ?_, ?_, ?_, ?_, ?_, ?_, ?_, ?_, ?_, ?_, ?_⟩
  · intro ha
    exact ⟨by simp [smbInit, strOverride, ha], by simp [smbInit, strOverride, ha],
      by simp [smbInit, strOverride, ha], by simp [smbInit, strOverride, ha],
      by simp [smbInit, strOverride, ha]⟩
  · intro hn
    simp [smbInit, natOverride, hn]
  all_goals simp [smbInit, strOverride, natOverride]

/-- C9 amended witness: concrete settings with padded values; a caller
username "x" wins untouched, caller port 9 wins, and unset fields fall back
to the stripped (or, for the port, unmodified) settings values. -/
theorem smbInit_override_resolution_witness :
    (smbInit sSample (some "x") none none none none none).username = "x" ∧
    (smbInit sSample none none none (some 9) none none).port = 9 ∧
    (smbInit sSample none none none none none none).username = pyStrip sSample.username := by
  have h := smbInit_override_resolution sSample "x" 9 none none none none none none
  exact ⟨(h.1 (by decide)).1, h.2.1 (by decide), h.2.2.1⟩
